import Mathlib

/-!
# Verification of the Portfolio Rebalancing Optimizer
  (`src/pricing/regime_downside/python/solve_lp.py`)

Shallow embedding of `solve_portfolio_lp`: the Problem record it loads,
the linear program it formulates (decision variables, constraints,
objective), the cascading solver attempt, and the Solution it extracts
(or synthesizes on failure).  Scalars are modelled as exact rationals
(`ℚ`); the solver itself is external, so a solve attempt is modelled as
an abstract outcome (either an exception, or a status tag plus a primal
assignment of the decision variables).
-/

namespace Atemoya

/-- The Problem record, as loaded by `solve_portfolio_lp` from the JSON
problem file (lines 29-52 of `solve_lp.py`).  Vectors and the `T × N`
scenario matrix are lists, mirroring the JSON arrays. -/
structure Problem where
  n_assets : ℕ
  n_scenarios : ℕ
  asset_scenarios : List (List ℚ)
  benchmark_scenarios : List ℚ
  cash_scenarios : List ℚ
  prev_weights : List ℚ
  prev_cash : ℚ
  asset_betas : List ℚ
  stress_weight : ℚ
  lambda_lpm1 : ℚ
  lambda_cvar : ℚ
  lambda_beta : ℚ
  kappa : ℚ
  lpm_threshold : ℚ
  cvar_alpha : ℚ
  beta_target : ℚ
deriving DecidableEq

/-- A primal assignment of the decision variables created at lines 54-71:
`w` (N asset weights), `w_c` (cash weight), `s_lpm` (T LPM slacks),
`eta` (free CVaR threshold), `u` (T tail-loss slacks), `z` (N turnover
slacks), `v` (beta-deviation slack).  Vector variables are total
functions on `ℕ`; only indices below N (resp. T) are constrained or
read. -/
structure Assignment where
  w : ℕ → ℚ
  w_c : ℚ
  s_lpm : ℕ → ℚ
  eta : ℚ
  u : ℕ → ℚ
  z : ℕ → ℚ
  v : ℚ

/-- Active scenario return `a[t]` (lines 73-80): portfolio scenario
return `p[t] = (R @ w)[t] + r_c[t] * w_c` minus benchmark `b[t]`. -/
def activeRet (P : Problem) (A : Assignment) (t : ℕ) : ℚ :=
  (∑ i ∈ Finset.range P.n_assets, (P.asset_scenarios.getD t []).getD i 0 * A.w i)
    + P.cash_scenarios.getD t 0 * A.w_c
    - P.benchmark_scenarios.getD t 0

/-- Portfolio beta `betas @ w` (line 109). -/
def portBeta (P : Problem) (A : Assignment) : ℚ :=
  ∑ i ∈ Finset.range P.n_assets, P.asset_betas.getD i 0 * A.w i

/-- The feasible set of the formulated LP: the variable domains declared
at lines 57-71 (`nonneg=True` everywhere except `eta`) together with the
constraints appended at lines 84-116, in source order:
(1) full investment, (2) LPM1 slack, (3) CVaR slack, (4) turnover slack
(two one-sided vector inequalities), (5) beta-deviation slack (two
one-sided scalar inequalities). -/
def Feasible (P : Problem) (A : Assignment) : Prop :=
  (∀ i < P.n_assets, 0 ≤ A.w i) ∧
  0 ≤ A.w_c ∧
  (∀ t < P.n_scenarios, 0 ≤ A.s_lpm t) ∧
  (∀ t < P.n_scenarios, 0 ≤ A.u t) ∧
  (∀ i < P.n_assets, 0 ≤ A.z i) ∧
  0 ≤ A.v ∧
  ((∑ i ∈ Finset.range P.n_assets, A.w i) + A.w_c = 1) ∧
  (∀ t < P.n_scenarios, A.s_lpm t ≥ P.lpm_threshold - activeRet P A t) ∧
  (∀ t < P.n_scenarios, A.u t ≥ -activeRet P A t - A.eta) ∧
  (∀ i < P.n_assets, A.z i ≥ A.w i - P.prev_weights.getD i 0) ∧
  (∀ i < P.n_assets, A.z i ≥ -(A.w i - P.prev_weights.getD i 0)) ∧
  A.v ≥ portBeta P A - P.beta_target ∧
  A.v ≥ -(portBeta P A - P.beta_target)

/-- The minimized objective as built at lines 118-135:
`lpm1_term + cvar_term + turnover_term + beta_penalty_term`, each term
transcribed from the source expressions. -/
def objectiveFn (P : Problem) (A : Assignment) : ℚ :=
  (P.lambda_lpm1 / P.n_scenarios) * (∑ t ∈ Finset.range P.n_scenarios, A.s_lpm t)
    + P.lambda_cvar *
        (A.eta + (1 / ((1 - P.cvar_alpha) * P.n_scenarios)) *
          (∑ t ∈ Finset.range P.n_scenarios, A.u t))
    + P.kappa * (∑ i ∈ Finset.range P.n_assets, A.z i)
    + P.lambda_beta * P.stress_weight * A.v

/-- The objective exactly as the spec (§4.2) writes it:
`lambda_lpm1 * (1/T) * sum(s_lpm) + lambda_cvar * (eta +
(1/((1-alpha)*T)) * sum(u)) + kappa * sum(z) + lambda_beta *
stress_weight * v`.  Used only to compare against `objectiveFn`. -/
def objectiveSpec (P : Problem) (A : Assignment) : ℚ :=
  P.lambda_lpm1 * (1 / P.n_scenarios) * (∑ t ∈ Finset.range P.n_scenarios, A.s_lpm t)
    + P.lambda_cvar *
        (A.eta + (1 / ((1 - P.cvar_alpha) * P.n_scenarios)) *
          (∑ t ∈ Finset.range P.n_scenarios, A.u t))
    + P.kappa * (∑ i ∈ Finset.range P.n_assets, A.z i)
    + P.lambda_beta * P.stress_weight * A.v

/-- The feasible set grouped the way the claim lists it: budget, then the
two per-scenario inequalities together, then the two per-asset turnover
inequalities together, then the beta inequalities, then nonnegativity of
`w, w_c, s_lpm, u, z, v` via variable domains (`eta` free). -/
def FeasibleSpec (P : Problem) (A : Assignment) : Prop :=
  ((∑ i ∈ Finset.range P.n_assets, A.w i) + A.w_c = 1) ∧
  (∀ t < P.n_scenarios,
      A.s_lpm t ≥ P.lpm_threshold - activeRet P A t ∧
      A.u t ≥ -activeRet P A t - A.eta) ∧
  (∀ i < P.n_assets,
      A.z i ≥ A.w i - P.prev_weights.getD i 0 ∧
      A.z i ≥ -(A.w i - P.prev_weights.getD i 0)) ∧
  (A.v ≥ portBeta P A - P.beta_target ∧
   A.v ≥ -(portBeta P A - P.beta_target)) ∧
  (∀ i < P.n_assets, 0 ≤ A.w i) ∧
  0 ≤ A.w_c ∧
  (∀ t < P.n_scenarios, 0 ≤ A.s_lpm t) ∧
  (∀ t < P.n_scenarios, 0 ≤ A.u t) ∧
  (∀ i < P.n_assets, 0 ≤ A.z i) ∧
  0 ≤ A.v

/-- An optimal assignment: feasible and objective-minimal among all
feasible assignments.  A successful solver attempt returns such an
assignment. -/
def IsOptimal (P : Problem) (A : Assignment) : Prop :=
  Feasible P A ∧ ∀ B : Assignment, Feasible P B → objectiveFn P A ≤ objectiveFn P B

/-- The `objective_value` field of a Solution: a finite rational, or the
`float('inf')` written by the fallback branches (lines 157, 192). -/
inductive ObjVal where
  | finite : ℚ → ObjVal
  | posInf : ObjVal
deriving DecidableEq

/-- The Solution record serialized at lines 154-163 / 175-184 / 189-198. -/
structure Solution where
  asset_weights : List ℚ
  cash_weight : ℚ
  objective_value : ObjVal
  lpm1_value : ℚ
  cvar_value : ℚ
  turnover : ℚ
  beta_penalty : ℚ
  solver_status : String
deriving DecidableEq

/-- The statuses accepted at line 151: `["optimal", "optimal_inaccurate"]`. -/
def okStatuses : List String := ["optimal", "optimal_inaccurate"]

/-- Solution extraction on an accepted status (lines 164-184): read back
the optimized variables and recompute the four component metrics from
them (`lpm1_val`, `cvar_val`, `turnover_val`, `beta_pen_val` at lines
170-173); `objective_value` is the objective evaluated at the optimum
(`problem.value`). -/
def extractSuccess (P : Problem) (A : Assignment) (status : String) : Solution :=
  { asset_weights := (List.range P.n_assets).map A.w
    cash_weight := A.w_c
    objective_value := ObjVal.finite (objectiveFn P A)
    lpm1_value := (1 / P.n_scenarios) * (∑ t ∈ Finset.range P.n_scenarios, A.s_lpm t)
    cvar_value := A.eta + (1 / ((1 - P.cvar_alpha) * P.n_scenarios)) *
        (∑ t ∈ Finset.range P.n_scenarios, A.u t)
    turnover := ∑ i ∈ Finset.range P.n_assets, A.z i
    beta_penalty := P.stress_weight * A.v
    solver_status := status }

/-- The fallback Solution synthesized on a rejected status (lines
154-163) or on an exception caught by the outer `try` (lines 189-198):
previous weights and cash passed through, `objective_value = inf`, all
four component metrics zero, `solver_status` the given tag. -/
def fallbackSolution (P : Problem) (status : String) : Solution :=
  { asset_weights := P.prev_weights
    cash_weight := P.prev_cash
    objective_value := ObjVal.posInf
    lpm1_value := 0
    cvar_value := 0
    turnover := 0
    beta_penalty := 0
    solver_status := status }

/-- What one `problem.solve(...)` attempt leaves behind when it returns
without raising: `problem.status` and the primal variable values. -/
structure SolveReturn where
  status : String
  assign : Assignment

/-- The behavior of the three external solver backends for one
invocation: each attempt either raises (`Except.error ()`) or returns
(`Except.ok r`).  The solvers are external collaborators, so their
behavior is a parameter of the model. -/
structure SolverBehavior where
  clarabel : Except Unit SolveReturn
  scs : Except Unit SolveReturn
  osqp : Except Unit SolveReturn

/-- The three backends, in the priority order of lines 142-149. -/
inductive SolverName where
  | clarabel : SolverName
  | scs : SolverName
  | osqp : SolverName
deriving DecidableEq

/-- The nested try/except cascade of lines 143-149: CLARABEL first; on
an exception try SCS; on another exception try OSQP.  `none` means all
three raised, so the exception escapes to the outer `except` at line
186. -/
def cascade (B : SolverBehavior) : Option SolveReturn :=
  match B.clarabel with
  | .ok r => some r
  | .error _ =>
    match B.scs with
    | .ok r => some r
    | .error _ =>
      match B.osqp with
      | .ok r => some r
      | .error _ => none

/-- The sequence of solver invocations performed by the cascade of lines
143-149, in order: CLARABEL always runs; SCS runs only inside CLARABEL's
`except`; OSQP only inside SCS's `except`. -/
def invoked (B : SolverBehavior) : List SolverName :=
  match B.clarabel with
  | .ok _ => [SolverName.clarabel]
  | .error _ =>
    match B.scs with
    | .ok _ => [SolverName.clarabel, SolverName.scs]
    | .error _ => [SolverName.clarabel, SolverName.scs, SolverName.osqp]

/-- Python exceptions that the formulation phase (lines 36-139) can
raise.  `zeroDivision` is `ZeroDivisionError` from a float division by
zero; `shapeMismatch` conservatively stands for the generic numpy/cvxpy
exception raised when the array shapes are inconsistent.  None of the
theorems below depends on the exact broadcasting rule behind
`shapeMismatch`: every theorem touching formulation either assumes
consistent shapes or is about the divisions at lines 121 and 124. -/
inductive PyErr where
  | zeroDivision : PyErr
  | shapeMismatch : PyErr
deriving DecidableEq

/-- Shape consistency of the loaded arrays with `n_assets`/`n_scenarios`
(the §3 invariant): `asset_scenarios` is `T × N`, `benchmark_scenarios`,
`cash_scenarios` have length T, `prev_weights`, `asset_betas` length N. -/
def dimsOK (P : Problem) : Bool :=
  P.asset_scenarios.length = P.n_scenarios
    && P.asset_scenarios.all (fun row => row.length = P.n_assets)
    && P.benchmark_scenarios.length = P.n_scenarios
    && P.cash_scenarios.length = P.n_scenarios
    && P.prev_weights.length = P.n_assets
    && P.asset_betas.length = P.n_assets

/-- Whether the formulation phase (lines 54-139, executed BEFORE the
`try` at line 141) completes or raises: inconsistent array shapes raise
while the constraint expressions are built (lines 77-116); then
`lambda_lpm1 / T` at line 121 raises `ZeroDivisionError` when `T = 0`;
then `1.0 / ((1 - alpha) * T)` at line 124 raises `ZeroDivisionError`
when `(1 - alpha) * T = 0`. -/
def formulate (P : Problem) : Except PyErr Unit :=
  if ¬ dimsOK P then .error .shapeMismatch
  else if (P.n_scenarios : ℚ) = 0 then .error .zeroDivision
  else if (1 - P.cvar_alpha) * (P.n_scenarios : ℚ) = 0 then .error .zeroDivision
  else .ok ()

/-- `solve_portfolio_lp`, as a function of the Problem record and the
external solvers' behavior.  Formulation runs outside the `try` at line
141, so a formulation exception propagates (`Except.error`) and no
Solution is produced or written.  Inside the `try`: the solver cascade
runs; if all three attempts raise, the outer `except` (line 186) builds
the `"error"` fallback; otherwise the status of the attempt that
returned is checked against `okStatuses` (line 151) and the Solution is
either extracted (lines 164-184) or synthesized as a fallback (lines
154-163). -/
def solve_portfolio_lp (P : Problem) (B : SolverBehavior) : Except PyErr Solution :=
  match formulate P with
  | .error e => .error e
  | .ok _ =>
    match cascade B with
    | none => .ok (fallbackSolution P "error")
    | some r =>
      if r.status ∈ okStatuses then .ok (extractSuccess P r.assign r.status)
      else .ok (fallbackSolution P r.status)

/-- The status tag inspected at line 151, given the terminal state of
the solver cascade: the returning attempt's `problem.status`, or the
`"error"` tag when every attempt raised. -/
def observedStatus : Option SolveReturn → String
  | none => "error"
  | some r => r.status

/-! ## Concrete instances, for exercising the theorems -/

/-- A 1-asset, 1-scenario Problem: zero returns everywhere, previous
portfolio fully in the asset, `kappa = 1`, all other penalty
coefficients zero, `cvar_alpha = 1/2`. -/
def P1 : Problem :=
  { n_assets := 1, n_scenarios := 1
    asset_scenarios := [[0]], benchmark_scenarios := [0], cash_scenarios := [0]
    prev_weights := [1], prev_cash := 0
    asset_betas := [0], stress_weight := 1
    lambda_lpm1 := 0, lambda_cvar := 0, lambda_beta := 0, kappa := 1
    lpm_threshold := 0, cvar_alpha := 1/2, beta_target := 0 }

/-- `P1` with the turnover coefficient zeroed out. -/
def PkappaZero : Problem := { P1 with kappa := 0 }

/-- `P1` with a negative turnover coefficient (an invalid value range
per the spec §4.1). -/
def PnegKappa : Problem := { P1 with kappa := -1 }

/-- `P1` with `cvar_alpha = 1`, the value at which line 124 divides by
zero. -/
def PalphaOne : Problem := { P1 with cvar_alpha := 1 }

/-- The status-quo assignment for `P1`: all weight in the asset, every
slack zero. -/
def A1 : Assignment :=
  { w := fun _ => 1, w_c := 0, s_lpm := fun _ => 0, eta := 0
    u := fun _ => 0, z := fun _ => 0, v := 0 }

/-- `A1` with the turnover slack inflated to `5` (still feasible, since
the slack constraints are one-sided lower bounds). -/
def AzFive : Assignment := { A1 with z := fun _ => 5 }

/-- CLARABEL returns `"optimal"` with assignment `A1`. -/
def Bok : SolverBehavior :=
  { clarabel := Except.ok ⟨"optimal", A1⟩
    scs := Except.error (), osqp := Except.error () }

/-- CLARABEL returns `"infeasible"`. -/
def Binf : SolverBehavior :=
  { clarabel := Except.ok ⟨"infeasible", A1⟩
    scs := Except.error (), osqp := Except.error () }

/-- Every solver attempt raises. -/
def Berr : SolverBehavior :=
  { clarabel := Except.error (), scs := Except.error (), osqp := Except.error () }

/-- CLARABEL raises, SCS returns `"optimal"` with `A1`. -/
def Bscs : SolverBehavior :=
  { clarabel := Except.error (), scs := Except.ok ⟨"optimal", A1⟩
    osqp := Except.error () }

/-- CLARABEL returns `"optimal"` with the slack-inflated `AzFive`. -/
def Bz5 : SolverBehavior :=
  { clarabel := Except.ok ⟨"optimal", AzFive⟩
    scs := Except.error (), osqp := Except.error () }

/-! ## Helper lemmas -/

/-- Summing a mapped `List.range` agrees with the `Finset.range` sum. -/
lemma sum_map_range (f : ℕ → ℚ) (n : ℕ) :
    ((List.range n).map f).sum = ∑ i ∈ Finset.range n, f i := by
  induction n with
  | zero => simp
  | succ n ih => rw [List.range_succ, Finset.sum_range_succ, List.map_append, List.sum_append, ih]; simp

/-- The formulation on `P1` completes (consistent shapes, nonzero
denominators). -/
lemma formulate_P1 : formulate P1 = Except.ok () := by
  unfold formulate
  rw [if_neg (by decide), if_neg (by norm_num [P1]), if_neg (by norm_num [P1])]

/-- `A1` satisfies every constraint of the LP formulated from `P1`. -/
lemma feasible_P1_A1 : Feasible P1 A1 := by
  unfold Feasible activeRet portBeta
  norm_num [P1, A1, Nat.lt_one_iff, Finset.sum_range_one]

/-- On `P1` the objective collapses to the single turnover slack. -/
lemma objectiveFn_P1 (B : Assignment) : objectiveFn P1 B = B.z 0 := by
  unfold objectiveFn
  norm_num [P1, Finset.sum_range_one]

/-- `A1` is optimal for `P1`: its objective is `0`, and every feasible
assignment has objective `z 0 ≥ 0`. -/
lemma optimal_P1_A1 : IsOptimal P1 A1 := by
  refine ⟨feasible_P1_A1, fun B hB => ?_⟩
  rw [objectiveFn_P1, objectiveFn_P1]
  have hz : 0 ≤ B.z 0 := hB.2.2.2.2.1 0 (by decide)
  show A1.z 0 ≤ B.z 0
  simpa [A1] using hz

/-- `AzFive` satisfies every constraint of the LP formulated from
`PkappaZero`. -/
lemma feasible_Pk0_Az5 : Feasible PkappaZero AzFive := by
  unfold Feasible activeRet portBeta
  norm_num [PkappaZero, P1, A1, AzFive, Nat.lt_one_iff, Finset.sum_range_one]

/-- On `PkappaZero` every penalty coefficient is zero, so the objective
is identically zero. -/
lemma objectiveFn_Pk0 (B : Assignment) : objectiveFn PkappaZero B = 0 := by
  unfold objectiveFn
  norm_num [PkappaZero, P1]

/-- `AzFive` is optimal for `PkappaZero`: the objective is constant. -/
lemma optimal_Pk0_Az5 : IsOptimal PkappaZero AzFive := by
  refine ⟨feasible_Pk0_Az5, fun B hB => ?_⟩
  rw [objectiveFn_Pk0, objectiveFn_Pk0]

/-! ## Claim theorems -/

/-- C2: the objective minimized by the formulated LP (lines 118-135)
equals `lambda_lpm1 * (1/T) * sum(s_lpm) + lambda_cvar * (eta +
(1/((1-alpha)*T)) * sum(u)) + kappa * sum(z) + lambda_beta *
stress_weight * v`, for every Problem with `T > 0` and
`cvar_alpha ∈ (0,1)` and every assignment of the variables. -/
theorem objective_matches_spec (P : Problem) (A : Assignment)
    (hT : 0 < P.n_scenarios) (ha0 : 0 < P.cvar_alpha) (ha1 : P.cvar_alpha < 1) :
    objectiveFn P A = objectiveSpec P A := by
  unfold objectiveFn objectiveSpec
  ring

/-- C3: the feasible set built by the formulation (variable domains at
lines 57-71 plus the constraints appended at lines 84-116) is exactly
the constraint set the claim lists. -/
theorem constraints_match_spec (P : Problem) (A : Assignment) :
    Feasible P A ↔ FeasibleSpec P A := by
  unfold Feasible FeasibleSpec
  constructor
  · rintro ⟨hw, hwc, hs, hu, hz, hv, hb, h2, h3, h4, h5, h6, h7⟩
    exact ⟨hb, fun t ht => ⟨h2 t ht, h3 t ht⟩, fun i hi => ⟨h4 i hi, h5 i hi⟩,
      ⟨h6, h7⟩, hw, hwc, hs, hu, hz, hv⟩
  · rintro ⟨hb, hsu, hzz, ⟨h6, h7⟩, hw, hwc, hs, hu, hz, hv⟩
    exact ⟨hw, hwc, hs, hu, hz, hv, hb, fun t ht => (hsu t ht).1, fun t ht => (hsu t ht).2,
      fun i hi => (hzz i hi).1, fun i hi => (hzz i hi).2, h6, h7⟩

/-- C8: on an accepted status, the four component metrics of the
Solution are computed from the optimized variable assignment by the
formulas at lines 170-173 (`lpm1 = (1/T) * sum(s_lpm)`,
`cvar = eta + (1/((1-alpha)*T)) * sum(u)`, `turnover = sum(z)`,
`beta_penalty = stress_weight * v`), and they are internally consistent
with the reported objective value: `objective_value = lambda_lpm1 *
lpm1_value + lambda_cvar * cvar_value + kappa * turnover + lambda_beta *
beta_penalty`. -/
theorem metrics_from_optimized_values (P : Problem) (A : Assignment) (st : String) :
    (extractSuccess P A st).lpm1_value
      = (1 / P.n_scenarios) * (∑ t ∈ Finset.range P.n_scenarios, A.s_lpm t) ∧
    (extractSuccess P A st).cvar_value
      = A.eta + (1 / ((1 - P.cvar_alpha) * P.n_scenarios)) *
          (∑ t ∈ Finset.range P.n_scenarios, A.u t) ∧
    (extractSuccess P A st).turnover = ∑ i ∈ Finset.range P.n_assets, A.z i ∧
    (extractSuccess P A st).beta_penalty = P.stress_weight * A.v ∧
    (extractSuccess P A st).objective_value = ObjVal.finite
      (P.lambda_lpm1 * (extractSuccess P A st).lpm1_value
        + P.lambda_cvar * (extractSuccess P A st).cvar_value
        + P.kappa * (extractSuccess P A st).turnover
        + P.lambda_beta * (extractSuccess P A st).beta_penalty) := by
  refine ⟨rfl, rfl, rfl, rfl, ?_⟩
  simp only [extractSuccess]
  congr 1
  unfold objectiveFn
  ring

/-- C1: whenever formulation completes and the solve attempt terminates
with a status outside `{optimal, optimal_inaccurate}` — or every solver
attempt raised, so the outer `except` fires — `solve_portfolio_lp`
returns the fallback Solution: `asset_weights` is the input
`prev_weights` passed through verbatim, `cash_weight = prev_cash`,
`objective_value = +infinity`, the four component metrics are all `0`,
and `solver_status` is the observed status (`"error"` when an exception
was the cause). -/
theorem fallback_on_solve_failure (P : Problem) (B : SolverBehavior)
    (hf : formulate P = Except.ok ())
    (hbad : ∀ r, cascade B = some r → r.status ∉ okStatuses) :
    solve_portfolio_lp P B
      = Except.ok (fallbackSolution P (observedStatus (cascade B))) ∧
    (fallbackSolution P (observedStatus (cascade B))).asset_weights = P.prev_weights ∧
    (fallbackSolution P (observedStatus (cascade B))).cash_weight = P.prev_cash ∧
    (fallbackSolution P (observedStatus (cascade B))).objective_value = ObjVal.posInf ∧
    (fallbackSolution P (observedStatus (cascade B))).lpm1_value = 0 ∧
    (fallbackSolution P (observedStatus (cascade B))).cvar_value = 0 ∧
    (fallbackSolution P (observedStatus (cascade B))).turnover = 0 ∧
    (fallbackSolution P (observedStatus (cascade B))).beta_penalty = 0 ∧
    (fallbackSolution P (observedStatus (cascade B))).solver_status
      = observedStatus (cascade B) := by
  refine ⟨?_, rfl, rfl, rfl, rfl, rfl, rfl, rfl, rfl⟩
  unfold solve_portfolio_lp
  rw [hf]
  cases hc : cascade B with
  | none => simp [observedStatus]
  | some r =>
    simp only [observedStatus]
    rw [if_neg (hbad r hc)]

/-- C7: the solver cascade of lines 142-149 invokes the external
backends strictly sequentially in the fixed order CLARABEL, SCS, OSQP,
each at most once; a later backend runs only if every earlier one
raised; and the cascade's result is the return of the first attempt that
did not raise (whose status is then the one inspected at line 151). -/
theorem solver_cascade_order (B : SolverBehavior) :
    List.Nodup (invoked B) ∧
    (invoked B = [SolverName.clarabel] ∨
     invoked B = [SolverName.clarabel, SolverName.scs] ∨
     invoked B = [SolverName.clarabel, SolverName.scs, SolverName.osqp]) ∧
    (SolverName.scs ∈ invoked B → B.clarabel = Except.error ()) ∧
    (SolverName.osqp ∈ invoked B →
      B.clarabel = Except.error () ∧ B.scs = Except.error ()) ∧
    (∀ r, B.clarabel = Except.ok r →
      invoked B = [SolverName.clarabel] ∧ cascade B = some r) ∧
    (∀ r, B.clarabel = Except.error () → B.scs = Except.ok r →
      invoked B = [SolverName.clarabel, SolverName.scs] ∧ cascade B = some r) ∧
    (∀ r, B.clarabel = Except.error () → B.scs = Except.error () →
      B.osqp = Except.ok r →
      invoked B = [SolverName.clarabel, SolverName.scs, SolverName.osqp] ∧
        cascade B = some r) ∧
    (B.clarabel = Except.error () → B.scs = Except.error () →
      B.osqp = Except.error () → cascade B = none) := by
  obtain ⟨c, s, o⟩ := B
  cases c <;> cases s <;> cases o <;> simp [invoked, cascade]

/-- C10: on a Problem with consistent array shapes, `cvar_alpha = 1` and
`T ≥ 1`, the division `1.0 / ((1 - alpha) * T)` at line 124 raises
`ZeroDivisionError` while the CVaR objective term is built — before the
`try` at line 141 — so the exception propagates uncaught, no Solution is
returned, and no solution file is written, whatever the solvers would
have done. -/
theorem alpha_one_division_by_zero (P : Problem) (B : SolverBehavior)
    (hdims : dimsOK P = true) (hT : P.n_scenarios ≠ 0) (ha : P.cvar_alpha = 1) :
    solve_portfolio_lp P B = Except.error PyErr.zeroDivision := by
  have hform : formulate P = Except.error PyErr.zeroDivision := by
    unfold formulate
    rw [if_neg (by simp [hdims]), if_neg (by exact_mod_cast hT), if_pos (by rw [ha]; ring)]
  unfold solve_portfolio_lp
  rw [hform]

/-- C5 (amended): the exception-absorption boundary is the `try` at line
141, not the whole body.  When all three solver attempts raise, the
outer `except` absorbs the exception into the `"error"` fallback
Solution; but an exception raised during formulation (lines 54-139,
before the `try`) propagates to the caller unabsorbed. -/
theorem exception_absorption_boundary (P : Problem) (B : SolverBehavior) :
    (formulate P = Except.ok () →
      B.clarabel = Except.error () → B.scs = Except.error () →
      B.osqp = Except.error () →
      solve_portfolio_lp P B = Except.ok (fallbackSolution P "error")) ∧
    (∀ e, formulate P = Except.error e →
      solve_portfolio_lp P B = Except.error e) := by
  constructor
  · intro hf hc hs ho
    unfold solve_portfolio_lp
    rw [hf]
    unfold cascade
    rw [hc, hs, ho]
  · intro e hf
    unfold solve_portfolio_lp
    rw [hf]

/-- C4 (amended): the code performs no input validation at all.  For any
Problem whose arrays are shape-consistent, with `T ≥ 1` and
`cvar_alpha ≠ 1`, formulation completes and a returned `"optimal"`
status produces an extracted Solution — regardless of the signs of
`lambda_lpm1`, `lambda_cvar`, `lambda_beta`, `kappa`, `stress_weight`
and of whether `cvar_alpha` lies in `(0,1)`; no `ValidationError`
exists.  A shape mismatch surfaces only as a generic exception raised
during formulation, which propagates. -/
theorem no_validation_performed (P : Problem) (B : SolverBehavior) (r : SolveReturn)
    (hdims : dimsOK P = true) (hT : P.n_scenarios ≠ 0) (ha : P.cvar_alpha ≠ 1)
    (hcl : B.clarabel = Except.ok r) (hst : r.status = "optimal") :
    solve_portfolio_lp P B = Except.ok (extractSuccess P r.assign "optimal") ∧
    (dimsOK P = false →
      solve_portfolio_lp P B = Except.error PyErr.shapeMismatch) := by
  have hform : formulate P = Except.ok () := by
    unfold formulate
    rw [if_neg (by simp [hdims]), if_neg (by exact_mod_cast hT), if_neg]
    intro h
    rcases mul_eq_zero.mp h with h1 | h1
    · exact ha (by linarith [sub_eq_zero.mp h1])
    · exact hT (by exact_mod_cast h1)
  constructor
  · unfold solve_portfolio_lp
    rw [hform]
    unfold cascade
    rw [hcl]
    simp only [hst]
    rw [if_pos (by simp [okStatuses])]
  · intro hfalse
    rw [hdims] at hfalse
    exact absurd hfalse (by simp)

/-- C6: a Solution extracted from a constraint-satisfying (feasible)
assignment has `sum(asset_weights) + cash_weight = 1` — exactly, in this
exact-rational embedding, hence within any solver tolerance — because
the full-investment constraint (line 87) is part of the feasible set;
and for every fallback Solution the same identity holds if and only if
it held of the input `prev_weights`/`prev_cash`, because the fallback
passes both through unchanged. -/
theorem budget_invariant (P : Problem) (A : Assignment) (st : String)
    (hA : Feasible P A) :
    ((extractSuccess P A st).asset_weights.sum + (extractSuccess P A st).cash_weight = 1) ∧
    (∀ st2 : String,
      (fallbackSolution P st2).asset_weights.sum + (fallbackSolution P st2).cash_weight = 1 ↔
        P.prev_weights.sum + P.prev_cash = 1) := by
  constructor
  · show ((List.range P.n_assets).map A.w).sum + A.w_c = 1
    rw [sum_map_range]
    exact hA.2.2.2.2.2.2.1
  · intro st2
    exact Iff.rfl

/-- At a cost-minimal feasible point with `kappa > 0`, each turnover
slack `z i` is tight: lowering a slack strictly above `|w i - prev i|`
to the absolute difference stays feasible and strictly lowers the
objective. -/
lemma z_tight_at_optimum (P : Problem) (A : Assignment)
    (hk : 0 < P.kappa) (hopt : IsOptimal P A) :
    ∀ i < P.n_assets, A.z i = |A.w i - P.prev_weights.getD i 0| := by
  obtain ⟨hA, hmin⟩ := hopt
  intro i hi
  set d : ℚ := A.w i - P.prev_weights.getD i 0 with hd
  have hge : |d| ≤ A.z i :=
    abs_le.mpr ⟨by have := hA.2.2.2.2.2.2.2.2.2.2.1 i hi; linarith,
                hA.2.2.2.2.2.2.2.2.2.1 i hi⟩
  rcases eq_or_lt_of_le hge with heq | hlt
  · exact heq.symm
  exfalso
  -- replace z i by |d|: still feasible, strictly cheaper
  set B : Assignment :=
    { A with z := Function.update A.z i |d| } with hB
  have hBw : B.w = A.w := rfl
  have hBwc : B.w_c = A.w_c := rfl
  have hBs : B.s_lpm = A.s_lpm := rfl
  have hBeta : B.eta = A.eta := rfl
  have hBu : B.u = A.u := rfl
  have hBv : B.v = A.v := rfl
  have hzj : ∀ j, j ≠ i → B.z j = A.z j := by
    intro j hj
    show Function.update A.z i |d| j = A.z j
    exact Function.update_noteq hj _ _
  have hzi : B.z i = |d| := by
    show Function.update A.z i |d| i = |d|
    exact Function.update_same _ _ _
  have hBfeas : Feasible P B := by
    obtain ⟨c1, c2, c3, c4, c5, c6, c7, c8, c9, c10, c11, c12, c13⟩ := hA
    refine ⟨c1, c2, c3, c4, ?_, c6, c7, c8, c9, ?_, ?_, c12, c13⟩
    · intro j hj
      rcases eq_or_ne j i with rfl | hne
      · rw [hzi]; exact abs_nonneg _
      · rw [hzj j hne]; exact c5 j hj
    · intro j hj
      rcases eq_or_ne j i with rfl | hne
      · rw [hzi, hBw]; exact le_abs_self d
      · rw [hzj j hne]; exact c10 j hj
    · intro j hj
      rcases eq_or_ne j i with rfl | hne
      · rw [hzi, hBw]; exact neg_le_abs d
      · rw [hzj j hne]; exact c11 j hj
  have hsum : (∑ j ∈ Finset.range P.n_assets, B.z j)
      = (∑ j ∈ Finset.range P.n_assets, A.z j) - A.z i + |d| := by
    have hmem : i ∈ Finset.range P.n_assets := Finset.mem_range.mpr hi
    have h1 : (∑ j ∈ Finset.range P.n_assets, B.z j)
        = |d| + ∑ j ∈ (Finset.range P.n_assets).erase i, A.z j := by
      have := Finset.sum_update_of_mem hmem A.z |d|
      calc (∑ j ∈ Finset.range P.n_assets, B.z j)
          = ∑ j ∈ Finset.range P.n_assets, Function.update A.z i |d| j := rfl
        _ = |d| + ∑ j ∈ (Finset.range P.n_assets) \ {i}, A.z j := this
        _ = |d| + ∑ j ∈ (Finset.range P.n_assets).erase i, A.z j := by
            rw [Finset.erase_eq]
    have h2 : A.z i + ∑ j ∈ (Finset.range P.n_assets).erase i, A.z j
        = ∑ j ∈ Finset.range P.n_assets, A.z j := Finset.add_sum_erase _ _ hmem
    linarith
  have hobj : objectiveFn P B = objectiveFn P A + P.kappa * (|d| - A.z i) := by
    unfold objectiveFn
    rw [hBs, hBeta, hBu, hBv, hsum]
    ring
  have : objectiveFn P B < objectiveFn P A := by
    have : P.kappa * (|d| - A.z i) < 0 :=
      mul_neg_of_pos_of_neg hk (by linarith)
    linarith [hobj]
  exact absurd (hmin B hBfeas) (not_le.mpr this)

/-- C9 (amended): whenever `kappa > 0`, at a returned optimum the
turnover slacks are tight — `z i = |w i - prev_weights i|` for every
asset — and the reported `turnover` equals
`sum(|asset_weights i - prev_weights i|)` exactly. -/
theorem turnover_tight_of_kappa_pos (P : Problem) (A : Assignment) (st : String)
    (hk : 0 < P.kappa) (hopt : IsOptimal P A) :
    (∀ i < P.n_assets, A.z i = |A.w i - P.prev_weights.getD i 0|) ∧
    (extractSuccess P A st).turnover
      = ∑ i ∈ Finset.range P.n_assets, |A.w i - P.prev_weights.getD i 0| := by
  have htight := z_tight_at_optimum P A hk hopt
  refine ⟨htight, ?_⟩
  show (∑ i ∈ Finset.range P.n_assets, A.z i) = _
  exact Finset.sum_congr rfl fun i hiMem => htight i (Finset.mem_range.mp hiMem)

/-! ## Witnesses and counterexamples -/

/-- C1 witness: on `P1` with a solver reporting `"infeasible"`, the
fallback Solution is produced with every claimed field value. -/
theorem fallback_on_solve_failure_witness :
    solve_portfolio_lp P1 Binf
      = Except.ok (fallbackSolution P1 (observedStatus (cascade Binf))) ∧
    (fallbackSolution P1 (observedStatus (cascade Binf))).asset_weights = P1.prev_weights ∧
    (fallbackSolution P1 (observedStatus (cascade Binf))).cash_weight = P1.prev_cash ∧
    (fallbackSolution P1 (observedStatus (cascade Binf))).objective_value = ObjVal.posInf ∧
    (fallbackSolution P1 (observedStatus (cascade Binf))).lpm1_value = 0 ∧
    (fallbackSolution P1 (observedStatus (cascade Binf))).cvar_value = 0 ∧
    (fallbackSolution P1 (observedStatus (cascade Binf))).turnover = 0 ∧
    (fallbackSolution P1 (observedStatus (cascade Binf))).beta_penalty = 0 ∧
    (fallbackSolution P1 (observedStatus (cascade Binf))).solver_status
      = observedStatus (cascade Binf) :=
  fallback_on_solve_failure P1 Binf formulate_P1
    (by intro r hr; simp only [cascade, Binf] at hr; injection hr with h; rw [← h]; decide)

/-- C2 witness: the two objective forms agree on the concrete `P1`,
`A1`, whose `T` and `cvar_alpha` satisfy the claim's side conditions. -/
theorem objective_matches_spec_witness :
    0 < P1.n_scenarios ∧ 0 < P1.cvar_alpha ∧ P1.cvar_alpha < 1 ∧
    objectiveFn P1 A1 = objectiveSpec P1 A1 :=
  ⟨by decide, by norm_num [P1], by norm_num [P1],
   objective_matches_spec P1 A1 (by decide) (by norm_num [P1]) (by norm_num [P1])⟩

/-- C4 counterexample: `PnegKappa` has the invalid value range
`kappa = -1 < 0`, yet no `ValidationError` is raised — none exists in
the code — and a Solution is produced. -/
theorem no_validation_counterexample :
    PnegKappa.kappa < 0 ∧
    solve_portfolio_lp PnegKappa Bok
      = Except.ok (extractSuccess PnegKappa A1 "optimal") := by
  constructor
  · norm_num [PnegKappa, P1]
  · unfold solve_portfolio_lp
    have hform : formulate PnegKappa = Except.ok () := by
      unfold formulate
      rw [if_neg (by decide), if_neg (by norm_num [PnegKappa, P1]),
        if_neg (by norm_num [PnegKappa, P1])]
    rw [hform]
    rfl

/-- C4 witness (amended claim): on the range-invalid `PnegKappa` with a
solver returning `"optimal"`, formulation completes and the Solution is
extracted — no validation happens. -/
theorem no_validation_performed_witness :
    dimsOK PnegKappa = true ∧ PnegKappa.n_scenarios ≠ 0 ∧ PnegKappa.cvar_alpha ≠ 1 ∧
    (solve_portfolio_lp PnegKappa Bok
        = Except.ok (extractSuccess PnegKappa A1 "optimal") ∧
      (dimsOK PnegKappa = false →
        solve_portfolio_lp PnegKappa Bok = Except.error PyErr.shapeMismatch)) :=
  ⟨by decide, by decide, by norm_num [PnegKappa, P1],
   no_validation_performed PnegKappa Bok ⟨"optimal", A1⟩ (by decide) (by decide)
     (by norm_num [PnegKappa, P1]) rfl rfl⟩

/-- C5 counterexample: on `PalphaOne` formulation raises
`ZeroDivisionError` at line 124, and `solve_portfolio_lp` propagates it
instead of returning the `"error"` fallback Solution — even though the
solvers themselves would have worked. -/
theorem formulation_error_propagates :
    formulate PalphaOne = Except.error PyErr.zeroDivision ∧
    solve_portfolio_lp PalphaOne Bok = Except.error PyErr.zeroDivision ∧
    solve_portfolio_lp PalphaOne Bok
      ≠ Except.ok (fallbackSolution PalphaOne "error") := by
  have hform : formulate PalphaOne = Except.error PyErr.zeroDivision := by
    unfold formulate
    rw [if_neg (by decide), if_neg (by norm_num [PalphaOne, P1]),
      if_pos (by norm_num [PalphaOne, P1])]
  have hrun : solve_portfolio_lp PalphaOne Bok = Except.error PyErr.zeroDivision := by
    unfold solve_portfolio_lp
    rw [hform]
  exact ⟨hform, hrun, by rw [hrun]; intro h; cases h⟩

/-- C5 witness (amended claim): on `P1`, when all three solver attempts
raise, the exception is absorbed and the `"error"` fallback returned. -/
theorem exception_absorption_boundary_witness :
    solve_portfolio_lp P1 Berr = Except.ok (fallbackSolution P1 "error") :=
  (exception_absorption_boundary P1 Berr).1 formulate_P1 rfl rfl rfl

/-- C6 witness: on `P1` with the feasible `A1`, the extracted Solution's
budget is exactly `1`, and the fallback budget identity holds iff the
inputs summed to `1`. -/
theorem budget_invariant_witness :
    ((extractSuccess P1 A1 "optimal").asset_weights.sum
        + (extractSuccess P1 A1 "optimal").cash_weight = 1) ∧
    ((fallbackSolution P1 "infeasible").asset_weights.sum
        + (fallbackSolution P1 "infeasible").cash_weight = 1 ↔
      P1.prev_weights.sum + P1.prev_cash = 1) :=
  ⟨(budget_invariant P1 A1 "optimal" feasible_P1_A1).1,
   (budget_invariant P1 A1 "optimal" feasible_P1_A1).2 "infeasible"⟩

/-- C7 witness: when CLARABEL raises and SCS returns, exactly CLARABEL
then SCS are invoked, and SCS's return is the inspected one. -/
theorem solver_cascade_order_witness :
    invoked Bscs = [SolverName.clarabel, SolverName.scs] ∧
    cascade Bscs = some ⟨"optimal", A1⟩ :=
  (solver_cascade_order Bscs).2.2.2.2.2.1 ⟨"optimal", A1⟩ rfl rfl

/-- C9 counterexample: with `kappa = 0` the objective ignores `z`, so
the optimal assignment `AzFive` (optimal for `PkappaZero`, returnable by
a solver with status `"optimal"`) reports turnover `5` although
`sum(|asset_weights i - prev_weights i|) = 0`. -/
theorem turnover_not_tight_counterexample :
    IsOptimal PkappaZero AzFive ∧
    solve_portfolio_lp PkappaZero Bz5
      = Except.ok (extractSuccess PkappaZero AzFive "optimal") ∧
    (extractSuccess PkappaZero AzFive "optimal").turnover = 5 ∧
    (∑ i ∈ Finset.range PkappaZero.n_assets,
        |AzFive.w i - PkappaZero.prev_weights.getD i 0|) = 0 ∧
    (extractSuccess PkappaZero AzFive "optimal").turnover
      ≠ ∑ i ∈ Finset.range PkappaZero.n_assets,
          |AzFive.w i - PkappaZero.prev_weights.getD i 0| := by
  have h5 : (extractSuccess PkappaZero AzFive "optimal").turnover = 5 := by
    show (∑ i ∈ Finset.range PkappaZero.n_assets, AzFive.z i) = 5
    norm_num [PkappaZero, P1, AzFive, A1, Finset.sum_range_one]
  have h0 : (∑ i ∈ Finset.range PkappaZero.n_assets,
      |AzFive.w i - PkappaZero.prev_weights.getD i 0|) = 0 := by
    norm_num [PkappaZero, P1, AzFive, A1, Finset.sum_range_one]
  refine ⟨optimal_Pk0_Az5, ?_, h5, h0, by rw [h5, h0]; norm_num⟩
  unfold solve_portfolio_lp
  have hform : formulate PkappaZero = Except.ok () := by
    unfold formulate
    rw [if_neg (by decide), if_neg (by norm_num [PkappaZero, P1]),
      if_neg (by norm_num [PkappaZero, P1])]
  rw [hform]
  rfl

/-- C9 witness (amended claim): on `P1` (`kappa = 1 > 0`) with the
optimal assignment `A1`, the reported turnover equals the exact sum of
absolute weight changes. -/
theorem turnover_tight_witness :
    0 < P1.kappa ∧
    (extractSuccess P1 A1 "optimal").turnover
      = ∑ i ∈ Finset.range P1.n_assets, |A1.w i - P1.prev_weights.getD i 0| :=
  ⟨by norm_num [P1],
   (turnover_tight_of_kappa_pos P1 A1 "optimal" (by norm_num [P1]) optimal_P1_A1).2⟩

/-- C10 witness: on `PalphaOne` (`cvar_alpha = 1`, `T = 1`, consistent
shapes) the uncaught `ZeroDivisionError` propagates. -/
theorem alpha_one_division_by_zero_witness :
    dimsOK PalphaOne = true ∧ PalphaOne.n_scenarios ≠ 0 ∧ PalphaOne.cvar_alpha = 1 ∧
    solve_portfolio_lp PalphaOne Berr = Except.error PyErr.zeroDivision :=
  ⟨by decide, by decide, by norm_num [PalphaOne, P1],
   alpha_one_division_by_zero PalphaOne Berr (by decide) (by decide)
     (by norm_num [PalphaOne, P1])⟩

end Atemoya
